import Mathlib

/-!
Verification of the eddylicious HDF5 readers
(`eddylicious/readers/hdf5_readers.py`).

The module has two entry points:

* `read_points_from_hdf5(readPath, addValBot, addValTop, excludeBot,
  excludeTop, exchangeValBot, exchangeValTop)` loads two 2d arrays
  `pointsY`, `pointsZ`, optionally pads one boundary row on each side,
  trims rows from each side, and overwrites the first/last `pointsY` row.
  The file is opened in append mode (`'a'`), so when no padding and no
  trimming has re-bound the variables to in-memory copies, the exchange
  assignments write through to the on-disk datasets; append mode also
  creates an empty file when the path does not exist.

* `read_velocity_from_hdf5(...)` returns a closure `read(timeIndex)` that
  loads three 2d slices `uX`, `uY`, `uZ` for a time index (the file is
  opened read-only and fancy slicing of a dataset yields in-memory
  copies, so nothing is ever written back), pads, interpolates the
  boundary rows and trims.

Numbers are modelled by `ℚ`; matrices by `List (List ℚ)` (a list of
rows).  The NaN default sentinel of the float parameters is modelled by
`PyFloat.nan`; `np.isnan` is `PyFloat.isnan`.  NumPy/h5py row indexing
with possibly negative indices is `getRow`/`setRow` via `pyIdx`; the
Python slice `a[:stop]` with a possibly negative `stop` is `pyTake`.
The hdf5 file and the filesystem are modelled by `HFile` and
`FS := Option HFile`, threaded through the readers so that write-backs
and file creation are observable.
-/

namespace Eddylicious

/-- A row of a 2d array. -/
abbrev Row := List ℚ

/-- A 2d array, as a list of rows. -/
abbrev Mat := List Row

/-- A Python float argument: either NaN (the "unset" sentinel used as
default for the optional parameters) or a finite value. -/
inductive PyFloat where
  | nan : PyFloat
  | fin : ℚ → PyFloat
deriving DecidableEq

/-- `np.isnan` on a `PyFloat` argument. -/
def PyFloat.isnan : PyFloat → Bool
  | .nan => true
  | .fin _ => false

/-- The finite value carried by a `PyFloat`; only ever used under a
`!isnan` guard, mirroring the source. -/
def PyFloat.val : PyFloat → ℚ
  | .nan => 0
  | .fin q => q

/-- `a.shape[1]`: the length of the first row. -/
def rowLen (a : Mat) : ℕ := (a.headD []).length

/-- NumPy index resolution: a negative index counts from the end. -/
def pyIdx (n : ℕ) (i : ℤ) : ℕ :=
  if i < 0 then (i + n).toNat else i.toNat

/-- `a[i, :]` — read row `i` (NumPy indexing). -/
def getRow (a : Mat) (i : ℤ) : Row := a.getD (pyIdx a.length i) []

/-- `a[i, :] = r` — overwrite row `i` (NumPy indexing). -/
def setRow (a : Mat) (i : ℤ) (r : Row) : Mat := a.set (pyIdx a.length i) r

/-- `a[:stop, :]` — Python slice with a possibly negative stop index. -/
def pyTake (a : Mat) (stop : ℤ) : Mat :=
  if stop < 0 then a.take (a.length - stop.natAbs) else a.take stop.toNat

/-- `v*np.ones((1, w))`, i.e. one constant row of width `w`. -/
def constRow (w : ℕ) (v : ℚ) : Row := List.replicate w v

/-- `0.5*(r + s)` elementwise on two rows. -/
def avgRow (r s : Row) : Row := List.zipWith (fun x y => (x + y) / 2) r s

/-- How many rows padding adds: one per set `addVal` parameter. -/
def padCount (addValBot addValTop : PyFloat) : ℕ :=
  (if addValBot.isnan then 0 else 1) + (if addValTop.isnan then 0 else 1)

/-- The `addValBot` step of `read_points_from_hdf5`: prepend a constant
row to `pointsY` and a copy of the current first row to `pointsZ`. -/
def addBotPoints (addValBot : PyFloat) (nPointsZ : ℕ) (pY pZ : Mat) : Mat × Mat :=
  if !addValBot.isnan then
    (constRow nPointsZ addValBot.val :: pY, getRow pZ 0 :: pZ)
  else (pY, pZ)

/-- The `addValTop` step of `read_points_from_hdf5`: append a constant
row to `pointsY` and a copy of the current *first* row to `pointsZ`. -/
def addTopPoints (addValTop : PyFloat) (nPointsZ : ℕ) (pY pZ : Mat) : Mat × Mat :=
  if !addValTop.isnan then
    (pY ++ [constRow nPointsZ addValTop.val], pZ ++ [getRow pZ 0])
  else (pY, pZ)

/-- The "Cap the points" step of `read_points_from_hdf5`: drop
`excludeTop` rows from the top (slice bound computed from the row count
of `pointsY` after padding) and `excludeBot` rows from the bottom. -/
def capPoints (excludeBot excludeTop : ℕ) (pY pZ : Mat) : Mat × Mat :=
  let nPointsY := pY.length
  let p1 :=
    if excludeTop ≠ 0 then
      (pyTake pY ((nPointsY : ℤ) - excludeTop), pyTake pZ ((nPointsY : ℤ) - excludeTop))
    else (pY, pZ)
  if excludeBot ≠ 0 then (p1.1.drop excludeBot, p1.2.drop excludeBot) else p1

/-- The exchange step of `read_points_from_hdf5`: overwrite row `0` of
`pointsY` with `exchangeValBot` and row `-1` with `exchangeValTop`
(a scalar assigned to a row slice broadcasts over the row). -/
def exchangePoints (exchangeValBot exchangeValTop : PyFloat) (pY : Mat) : Mat :=
  let p1 :=
    if !exchangeValBot.isnan then
      setRow pY 0 (constRow (getRow pY 0).length exchangeValBot.val)
    else pY
  if !exchangeValTop.isnan then
    setRow p1 (-1) (constRow (getRow p1 (-1)).length exchangeValTop.val)
  else p1

/-- The result of one call of the points reader: the two returned arrays
plus the content of the on-disk datasets after the call (the file is
opened in append mode, so in-place assignments on the still-aliased
dataset write through). -/
structure PointsResult where
  pointsY : Mat
  pointsZ : Mat
  storedPointsY : Mat
  storedPointsZ : Mat
deriving DecidableEq

/-- The array pipeline of `read_points_from_hdf5` on the stored arrays
`pY0`, `pZ0`: pad bottom, pad top, cap, exchange.  `pointsY` still
aliases the on-disk dataset iff no padding re-bound it to a fresh array
and no slicing produced an in-memory copy; exactly then the exchange
assignments modify the stored data. -/
def read_points_core (pY0 pZ0 : Mat) (addValBot addValTop : PyFloat)
    (excludeBot excludeTop : ℕ) (exchangeValBot exchangeValTop : PyFloat) :
    PointsResult :=
  let nPointsZ := rowLen pY0
  let p1 := addBotPoints addValBot nPointsZ pY0 pZ0
  let p2 := addTopPoints addValTop nPointsZ p1.1 p1.2
  let p3 := capPoints excludeBot excludeTop p2.1 p2.2
  let pY4 := exchangePoints exchangeValBot exchangeValTop p3.1
  let aliased := addValBot.isnan && addValTop.isnan &&
    (excludeBot == 0) && (excludeTop == 0)
  ⟨pY4, p3.2, if aliased then pY4 else pY0, pZ0⟩

/-- Errors surfaced by the storage layer. -/
inductive H5Err where
  | fileNotFound : H5Err
  | keyError : H5Err
  | indexError : H5Err
deriving DecidableEq

/-- The relevant content of an hdf5 file: the optional datasets of the
`points` and `velocity` groups (a missing group and a missing dataset
both surface as a `KeyError`).  Velocity datasets are time series, one
`Mat` per time index. -/
structure HFile where
  pointsY : Option Mat
  pointsZ : Option Mat
  uX : Option (List Mat)
  uY : Option (List Mat)
  uZ : Option (List Mat)
deriving DecidableEq

/-- The file just created by opening a missing path in append mode. -/
def emptyHFile : HFile := ⟨none, none, none, none, none⟩

/-- The filesystem at the read path: `none` when no file exists. -/
abbrev FS := Option HFile

/-- `read_points_from_hdf5`: opens the file in append mode (`'a'`), which
creates an empty file when the path is missing; loads the two point
datasets; runs the array pipeline; returns the arrays and the filesystem
after the call. -/
def read_points_from_hdf5 (fs : FS) (addValBot addValTop : PyFloat)
    (excludeBot excludeTop : ℕ) (exchangeValBot exchangeValTop : PyFloat) :
    Except H5Err (Mat × Mat) × FS :=
  let dbFile := fs.getD emptyHFile
  match dbFile.pointsY, dbFile.pointsZ with
  | some pY0, some pZ0 =>
      let r := read_points_core pY0 pZ0 addValBot addValTop
        excludeBot excludeTop exchangeValBot exchangeValTop
      (Except.ok (r.pointsY, r.pointsZ),
       some ⟨some r.storedPointsY, some r.storedPointsZ, dbFile.uX, dbFile.uY, dbFile.uZ⟩)
  | _, _ => (Except.error H5Err.keyError, some dbFile)

/-- The padding steps of the velocity `read` closure on one component:
prepend/append one constant row. -/
def velPad (addValBot addValTop : PyFloat) (nPointsZ : ℕ) (a : Mat) : Mat :=
  let a1 := if !addValBot.isnan then constRow nPointsZ addValBot.val :: a else a
  if !addValTop.isnan then a1 ++ [constRow nPointsZ addValTop.val] else a1

/-- The interpolation and trimming steps of the velocity `read` closure
on one component.  `topmostPoint` is the row count after padding minus
`excludeTop`, computed by the caller from the `uX` component.  Top
interpolation runs first, then bottom interpolation, then the two
truncations — interpolation strictly before truncation. -/
def velInterpTrim (excludeBot excludeTop : ℕ) (interpValBot interpValTop : Bool)
    (topmostPoint : ℤ) (a : Mat) : Mat :=
  let a1 :=
    if interpValTop ∧ excludeTop ≠ 0 then
      setRow a (topmostPoint - 1)
        (avgRow (getRow a (topmostPoint - 1)) (getRow a topmostPoint))
    else a
  let a2 :=
    if interpValBot ∧ excludeBot ≠ 0 then
      setRow a1 (excludeBot : ℤ)
        (avgRow (getRow a1 ((excludeBot : ℤ) - 1)) (getRow a1 (excludeBot : ℤ)))
    else a1
  let a3 := if excludeTop ≠ 0 then pyTake a2 topmostPoint else a2
  if excludeBot ≠ 0 then a3.drop excludeBot else a3

/-- The array pipeline of one velocity `read(timeIndex)` call on the
three freshly loaded 2d slices.  `nPointsZ` and `topmostPoint` are
computed from the `uX` component and shared by all three, as in the
source. -/
def readVelocitySlices (uX0 uY0 uZ0 : Mat) (addValBot addValTop : PyFloat)
    (excludeBot excludeTop : ℕ) (interpValBot interpValTop : Bool) :
    Mat × Mat × Mat :=
  let nPointsZ := rowLen uX0
  let uX := velPad addValBot addValTop nPointsZ uX0
  let uY := velPad addValBot addValTop nPointsZ uY0
  let uZ := velPad addValBot addValTop nPointsZ uZ0
  let nPointsY := uX.length
  let topmostPoint : ℤ := (nPointsY : ℤ) - (excludeTop : ℤ)
  (velInterpTrim excludeBot excludeTop interpValBot interpValTop topmostPoint uX,
   velInterpTrim excludeBot excludeTop interpValBot interpValTop topmostPoint uY,
   velInterpTrim excludeBot excludeTop interpValBot interpValTop topmostPoint uZ)

/-- The closure returned by `read_velocity_from_hdf5`.  Each call opens
the file read-only (`'r'`): a missing path is a file-not-found error and
nothing is ever written back, so the filesystem is returned unchanged.
Fancy slicing `dbFile["velocity"]["uX"][timeIndex, :, :]` of a dataset
yields an in-memory copy; an out-of-range time index is an index
error. -/
def read (addValBot addValTop : PyFloat) (excludeBot excludeTop : ℕ)
    (interpValBot interpValTop : Bool) (fs : FS) (timeIndex : ℕ) :
    Except H5Err (Mat × Mat × Mat) × FS :=
  match fs with
  | none => (Except.error H5Err.fileNotFound, none)
  | some dbFile =>
      match dbFile.uX, dbFile.uY, dbFile.uZ with
      | some xs, some ys, some zs =>
          match xs.get? timeIndex, ys.get? timeIndex, zs.get? timeIndex with
          | some uX0, some uY0, some uZ0 =>
              (Except.ok (readVelocitySlices uX0 uY0 uZ0 addValBot addValTop
                excludeBot excludeTop interpValBot interpValTop), some dbFile)
          | _, _, _ => (Except.error H5Err.indexError, some dbFile)
      | _, _, _ => (Except.error H5Err.keyError, some dbFile)

/-- A reader closure together with its backend tag. -/
structure TaggedReader where
  run : FS → ℕ → Except H5Err (Mat × Mat × Mat) × FS
  reader : String

/-- `read_velocity_from_hdf5`: the factory returning the `read` closure,
tagged `"hdf5"`.  The closure captures only the configuration. -/
def read_velocity_from_hdf5 (addValBot addValTop : PyFloat)
    (excludeBot excludeTop : ℕ) (interpValBot interpValTop : Bool) :
    TaggedReader :=
  ⟨fun fs timeIndex =>
    read addValBot addValTop excludeBot excludeTop interpValBot interpValTop fs timeIndex,
   "hdf5"⟩

/-- Two 2d arrays have identical shape: equally many rows, and the rows
at every index have equal length. -/
def sameShape (a b : Mat) : Prop :=
  a.length = b.length ∧ ∀ i : ℕ, (a.getD i []).length = (b.getD i []).length

/-! ### Helper lemmas -/

theorem pyIdx_nonneg (n : ℕ) (z : ℤ) (h : 0 ≤ z) : pyIdx n z = z.toNat := by
  unfold pyIdx
  rw [if_neg (by omega)]

theorem pyIdx_neg_one (n : ℕ) : pyIdx n (-1) = n - 1 := by
  unfold pyIdx
  rw [if_pos (by omega)]
  omega

theorem pyTake_nonneg (a : Mat) (stop : ℤ) (h : 0 ≤ stop) :
    pyTake a stop = a.take stop.toNat := by
  unfold pyTake
  rw [if_neg (by omega)]

theorem length_setRow (a : Mat) (i : ℤ) (r : Row) :
    (setRow a i r).length = a.length := by
  unfold setRow
  exact List.length_set a _ r

theorem getRow_ofNat (a : Mat) (i : ℕ) : getRow a (i : ℤ) = a.getD i [] := by
  unfold getRow
  rw [pyIdx_nonneg _ _ (by omega)]
  simp

theorem getD_set_self (a : Mat) (i : ℕ) (r : Row) (h : i < a.length) :
    (a.set i r).getD i [] = r := by
  rw [List.getD_eq_getElem?_getD, List.getElem?_set_self h]
  rfl

theorem getD_set_ne (a : Mat) (i j : ℕ) (r : Row) (h : i ≠ j) :
    (a.set i r).getD j [] = a.getD j [] := by
  rw [List.getD_eq_getElem?_getD, List.getD_eq_getElem?_getD, List.getElem?_set_ne h]

theorem getD_set_split (a : Mat) (i j : ℕ) (r : Row) :
    (a.set i r).getD j [] = if i = j ∧ i < a.length then r else a.getD j [] := by
  by_cases hij : i = j
  · subst hij
    by_cases hi : i < a.length
    · rw [getD_set_self a i r hi, if_pos ⟨rfl, hi⟩]
    · rw [List.set_eq_of_length_le (by omega), if_neg (by tauto)]
  · rw [getD_set_ne a i j r hij, if_neg (by tauto)]

theorem getD_take_lt (a : Mat) (k i : ℕ) (h : i < k) :
    (a.take k).getD i [] = a.getD i [] := by
  rw [List.getD_eq_getElem?_getD, List.getD_eq_getElem?_getD, List.getElem?_take,
    if_pos h]

theorem getD_drop_add (a : Mat) (k i : ℕ) :
    (a.drop k).getD i [] = a.getD (k + i) [] := by
  rw [List.getD_eq_getElem?_getD, List.getD_eq_getElem?_getD, List.getElem?_drop]

theorem rowLen_eq_getD (a : Mat) : rowLen a = (a.getD 0 []).length := by
  unfold rowLen
  cases a <;> rfl

/-! ### Claim theorems -/

/-- C3: in the points reader, `addValBot` prepends a `pointsY` row filled
with the given value and a copy of the current first `pointsZ` row;
`addValTop` appends a `pointsY` row filled with the given value and a
copy of the *first* (not the last) `pointsZ` row, for every input
array. -/
theorem C3_padding_rows (pY0 pZ0 : Mat) (v u : ℚ) :
    (read_points_core pY0 pZ0 (PyFloat.fin v) PyFloat.nan 0 0
        PyFloat.nan PyFloat.nan).pointsY = constRow (rowLen pY0) v :: pY0 ∧
    (read_points_core pY0 pZ0 (PyFloat.fin v) PyFloat.nan 0 0
        PyFloat.nan PyFloat.nan).pointsZ = pZ0.getD 0 [] :: pZ0 ∧
    (read_points_core pY0 pZ0 PyFloat.nan (PyFloat.fin u) 0 0
        PyFloat.nan PyFloat.nan).pointsY = pY0 ++ [constRow (rowLen pY0) u] ∧
    (read_points_core pY0 pZ0 PyFloat.nan (PyFloat.fin u) 0 0
        PyFloat.nan PyFloat.nan).pointsZ = pZ0 ++ [pZ0.getD 0 []] := by
  refine ⟨rfl, ?_, rfl, ?_⟩ <;>
    simp [read_points_core, addBotPoints, addTopPoints, capPoints, exchangePoints,
      PyFloat.isnan, getRow, pyIdx]

/-- Taking all but the one just-appended row returns the original list;
the slice bound may be computed from a companion list of equal length. -/
theorem take_pad_top (pY pZ : Mat) (r s : Row) (hlen : pZ.length = pY.length) :
    pyTake (pZ ++ [s]) (((pY ++ [r]).length : ℤ) - ((1 : ℕ) : ℤ)) = pZ := by
  rw [pyTake_nonneg _ _ (by simp)]
  have h1 : ((((pY ++ [r]).length : ℕ) : ℤ) - ((1 : ℕ) : ℤ)).toNat = pZ.length := by
    simp [hlen]
  rw [h1]
  exact List.take_left pZ [s]

/-- C5: padding one row on a side and immediately trimming one row from
the same side is a no-op on the returned content: with
`addValBot = v, excludeBot = 1` (or `addValTop = v, excludeTop = 1`) and
no other options, the reader returns exactly what the all-defaults call
returns, namely the stored arrays — so in particular the other boundary
row is unaffected. -/
theorem C5_roundtrip (pY0 pZ0 : Mat) (v : ℚ) (hlen : pZ0.length = pY0.length) :
    ((read_points_core pY0 pZ0 (PyFloat.fin v) PyFloat.nan 1 0
        PyFloat.nan PyFloat.nan).pointsY
      = (read_points_core pY0 pZ0 PyFloat.nan PyFloat.nan 0 0
          PyFloat.nan PyFloat.nan).pointsY ∧
     (read_points_core pY0 pZ0 (PyFloat.fin v) PyFloat.nan 1 0
        PyFloat.nan PyFloat.nan).pointsZ
      = (read_points_core pY0 pZ0 PyFloat.nan PyFloat.nan 0 0
          PyFloat.nan PyFloat.nan).pointsZ) ∧
    ((read_points_core pY0 pZ0 PyFloat.nan (PyFloat.fin v) 0 1
        PyFloat.nan PyFloat.nan).pointsY
      = (read_points_core pY0 pZ0 PyFloat.nan PyFloat.nan 0 0
          PyFloat.nan PyFloat.nan).pointsY ∧
     (read_points_core pY0 pZ0 PyFloat.nan (PyFloat.fin v) 0 1
        PyFloat.nan PyFloat.nan).pointsZ
      = (read_points_core pY0 pZ0 PyFloat.nan PyFloat.nan 0 0
          PyFloat.nan PyFloat.nan).pointsZ) ∧
    (read_points_core pY0 pZ0 PyFloat.nan PyFloat.nan 0 0
        PyFloat.nan PyFloat.nan).pointsY = pY0 ∧
    (read_points_core pY0 pZ0 PyFloat.nan PyFloat.nan 0 0
        PyFloat.nan PyFloat.nan).pointsZ = pZ0 := by
  refine ⟨⟨rfl, rfl⟩, ⟨?_, ?_⟩, rfl, rfl⟩
  · show pyTake (pY0 ++ [constRow (rowLen pY0) (PyFloat.fin v).val])
        (((pY0 ++ [constRow (rowLen pY0) (PyFloat.fin v).val]).length : ℤ)
          - ((1 : ℕ) : ℤ)) = pY0
    exact take_pad_top pY0 pY0 _ _ rfl
  · show pyTake (pZ0 ++ [getRow pZ0 0])
        (((pY0 ++ [constRow (rowLen pY0) (PyFloat.fin v).val]).length : ℤ)
          - ((1 : ℕ) : ℤ)) = pZ0
    exact take_pad_top pY0 pZ0 _ _ hlen

/-- C5 witness: the round trip at a concrete store. -/
theorem C5_roundtrip_witness :
    (read_points_core [[1,1],[2,2],[3,3]] [[5,6],[7,8],[9,10]]
        (PyFloat.fin 4) PyFloat.nan 1 0 PyFloat.nan PyFloat.nan).pointsY
      = (read_points_core [[1,1],[2,2],[3,3]] [[5,6],[7,8],[9,10]]
          PyFloat.nan PyFloat.nan 0 0 PyFloat.nan PyFloat.nan).pointsY ∧
    (read_points_core [[1,1],[2,2],[3,3]] [[5,6],[7,8],[9,10]]
        PyFloat.nan (PyFloat.fin 4) 0 1 PyFloat.nan PyFloat.nan).pointsZ
      = (read_points_core [[1,1],[2,2],[3,3]] [[5,6],[7,8],[9,10]]
          PyFloat.nan PyFloat.nan 0 0 PyFloat.nan PyFloat.nan).pointsZ :=
  ⟨(C5_roundtrip [[1,1],[2,2],[3,3]] [[5,6],[7,8],[9,10]] 4 (by decide)).1.1,
   (C5_roundtrip [[1,1],[2,2],[3,3]] [[5,6],[7,8],[9,10]] 4 (by decide)).2.1.2⟩

/-- C10: NaN is the "unset" sentinel: passing NaN for `addValBot`,
`addValTop`, `exchangeValBot` or `exchangeValTop` makes the
corresponding step the identity, which is exactly the behaviour with
the parameter omitted (the Python defaults are NaN) — so no row is
added or exchanged and NaN can never act as an actual padding or
exchange value.  With all float parameters NaN the points reader only
trims and leaves the store untouched, and the velocity pipeline only
interpolates and trims. -/
theorem C10_nan_sentinel (pY pZ : Mat) (w eb et : ℕ)
    (uX0 uY0 uZ0 : Mat) (iB iT : Bool) :
    addBotPoints PyFloat.nan w pY pZ = (pY, pZ) ∧
    addTopPoints PyFloat.nan w pY pZ = (pY, pZ) ∧
    exchangePoints PyFloat.nan PyFloat.nan pY = pY ∧
    velPad PyFloat.nan PyFloat.nan w pY = pY ∧
    (read_points_core pY pZ PyFloat.nan PyFloat.nan eb et
        PyFloat.nan PyFloat.nan).pointsY = (capPoints eb et pY pZ).1 ∧
    (read_points_core pY pZ PyFloat.nan PyFloat.nan eb et
        PyFloat.nan PyFloat.nan).pointsZ = (capPoints eb et pY pZ).2 ∧
    (read_points_core pY pZ PyFloat.nan PyFloat.nan eb et
        PyFloat.nan PyFloat.nan).storedPointsY = pY ∧
    (read_points_core pY pZ PyFloat.nan PyFloat.nan eb et
        PyFloat.nan PyFloat.nan).storedPointsZ = pZ ∧
    readVelocitySlices uX0 uY0 uZ0 PyFloat.nan PyFloat.nan eb et iB iT
      = (velInterpTrim eb et iB iT ((uX0.length : ℤ) - et) uX0,
         velInterpTrim eb et iB iT ((uX0.length : ℤ) - et) uY0,
         velInterpTrim eb et iB iT ((uX0.length : ℤ) - et) uZ0) := by
  refine ⟨rfl, rfl, rfl, rfl, rfl, rfl, ?_, rfl, rfl⟩
  show (if ((eb == 0) && (et == 0)) = true
      then exchangePoints PyFloat.nan PyFloat.nan (capPoints eb et pY pZ).1
      else pY) = pY
  by_cases heb : eb = 0 <;> by_cases het : et = 0
  · subst heb; subst het; rfl
  · rw [if_neg (by simp [het])]
  · rw [if_neg (by simp [heb])]
  · rw [if_neg (by simp [heb])]

/-- C9: the velocity reader closure is stateless and deterministic: a
call never changes the filesystem, hence two calls with the same time
index (threaded through the filesystem state) return identical
results. -/
theorem C9_read_stateless (aB aT : PyFloat) (eb et : ℕ) (iB iT : Bool)
    (fs : FS) (t : ℕ) :
    ((read_velocity_from_hdf5 aB aT eb et iB iT).run fs t).2 = fs ∧
    ((read_velocity_from_hdf5 aB aT eb et iB iT).run
        ((read_velocity_from_hdf5 aB aT eb et iB iT).run fs t).2 t).1
      = ((read_velocity_from_hdf5 aB aT eb et iB iT).run fs t).1 := by
  have h : ∀ g : FS, (read aB aT eb et iB iT g t).2 = g := by
    intro g
    cases g with
    | none => rfl
    | some f =>
        cases f with
        | mk pY pZ uX uY uZ =>
            cases uX with
            | none => rfl
            | some xs =>
                cases uY with
                | none => rfl
                | some ys =>
                    cases uZ with
                    | none => rfl
                    | some zs =>
                        rcases hX : xs[t]? with _ | x <;>
                          rcases hY : ys[t]? with _ | y <;>
                            rcases hZ : zs[t]? with _ | z <;>
                          simp [read, hX, hY, hZ]
  constructor
  · exact h fs
  · show (read aB aT eb et iB iT ((read aB aT eb et iB iT fs t).2) t).1
        = (read aB aT eb et iB iT fs t).1
    rw [h fs]

/-- C4 (code bug): the points reader opens the store in append mode and,
when no padding and no exclusion has re-bound the arrays to in-memory
copies, the exchange assignment writes through to the on-disk dataset:
with `exchangeValBot = 3` and all other parameters at their defaults,
the stored `pointsY` changes from `[[1,1],[2,2]]` to `[[3,3],[2,2]]`. -/
theorem C4_exchange_writes_back :
    (read_points_from_hdf5
        (some ⟨some [[1,1],[2,2]], some [[5,6],[5,6]], none, none, none⟩)
        PyFloat.nan PyFloat.nan 0 0 (PyFloat.fin 3) PyFloat.nan).2
      = some ⟨some [[3,3],[2,2]], some [[5,6],[5,6]], none, none, none⟩ ∧
    (some (⟨some [[3,3],[2,2]], some [[5,6],[5,6]], none, none, none⟩ : HFile) : FS)
      ≠ some ⟨some [[1,1],[2,2]], some [[5,6],[5,6]], none, none, none⟩ := by
  exact ⟨by decide, by decide⟩

/-- C8 (code bug): calling the points reader on a missing store path
does not surface a file-not-found error with no side effect: append
mode creates an empty file at the path (a persistent side effect), and
the error that propagates is the missing-group `KeyError`. -/
theorem C8_missing_path_creates_file :
    read_points_from_hdf5 (none : FS) PyFloat.nan PyFloat.nan 0 0
        PyFloat.nan PyFloat.nan
      = (Except.error H5Err.keyError, some emptyHFile) ∧
    (some emptyHFile : FS) ≠ (none : FS) := by
  exact ⟨rfl, by decide⟩

theorem length_pyTake_sub (b : Mat) (n et : ℕ) (hb : b.length = n) (h : et ≤ n) :
    (pyTake b ((n : ℤ) - et)).length = n - et := by
  rw [pyTake_nonneg _ _ (by omega)]
  have h1 : ((n : ℤ) - (et : ℤ)).toNat = n - et := by omega
  rw [h1, List.length_take, hb]
  exact Nat.min_eq_left (by omega)

theorem length_iteSetRow (c : Prop) [Decidable c] (a : Mat) (i : ℤ) (r : Row) :
    (if c then setRow a i r else a).length = a.length := by
  split_ifs <;> simp [setRow]

theorem length_velPad (aB aT : PyFloat) (w : ℕ) (a : Mat) :
    (velPad aB aT w a).length = a.length + padCount aB aT := by
  unfold velPad padCount
  cases aB <;> cases aT <;> simp [PyFloat.isnan]

theorem length_velInterpTrim (eb et n : ℕ) (iB iT : Bool) (a : Mat)
    (hn : a.length = n) (hb : eb + et ≤ n) :
    (velInterpTrim eb et iB iT ((n : ℤ) - et) a).length = n - et - eb := by
  have htoNat : ((n : ℤ) - (et : ℤ)).toNat = n - et := by omega
  unfold velInterpTrim
  cases iT <;> cases iB <;> by_cases het : et = 0 <;> by_cases heb : eb = 0 <;>
    simp [het, heb, pyTake_nonneg _ _ (by omega : (0 : ℤ) ≤ (n : ℤ) - et),
      htoNat, List.length_take, List.length_drop, setRow, hn]

theorem length_addBotPoints (aB : PyFloat) (w : ℕ) (pY pZ : Mat) :
    (addBotPoints aB w pY pZ).1.length
        = pY.length + (if aB.isnan then 0 else 1) ∧
    (addBotPoints aB w pY pZ).2.length
        = pZ.length + (if aB.isnan then 0 else 1) := by
  unfold addBotPoints
  cases aB <;> simp [PyFloat.isnan]

theorem length_addTopPoints (aT : PyFloat) (w : ℕ) (pY pZ : Mat) :
    (addTopPoints aT w pY pZ).1.length
        = pY.length + (if aT.isnan then 0 else 1) ∧
    (addTopPoints aT w pY pZ).2.length
        = pZ.length + (if aT.isnan then 0 else 1) := by
  unfold addTopPoints
  cases aT <;> simp [PyFloat.isnan]

theorem length_capPoints (eb et : ℕ) (pY pZ : Mat) (hz : pZ.length = pY.length)
    (hb : eb + et ≤ pY.length) :
    (capPoints eb et pY pZ).1.length = pY.length - et - eb ∧
    (capPoints eb et pY pZ).2.length = pY.length - et - eb := by
  unfold capPoints
  have hY := length_pyTake_sub pY pY.length et rfl (by omega)
  have hZ := length_pyTake_sub pZ pY.length et hz (by omega)
  by_cases het : et = 0 <;> by_cases heb : eb = 0 <;>
    simp [het, heb, hY, hZ, hz, List.length_drop]

theorem length_exchangePoints (xb xt : PyFloat) (pY : Mat) :
    (exchangePoints xb xt pY).length = pY.length := by
  unfold exchangePoints
  cases xb <;> cases xt <;> simp [PyFloat.isnan, setRow]

theorem read_points_core_lengths (pY0 pZ0 : Mat) (aB aT xb xt : PyFloat)
    (eb et : ℕ) (hz : pZ0.length = pY0.length)
    (hb : eb + et ≤ pY0.length + padCount aB aT) :
    (read_points_core pY0 pZ0 aB aT eb et xb xt).pointsY.length
        = pY0.length + padCount aB aT - et - eb ∧
    (read_points_core pY0 pZ0 aB aT eb et xb xt).pointsZ.length
        = pY0.length + padCount aB aT - et - eb := by
  unfold read_points_core
  have h1 := length_addBotPoints aB (rowLen pY0) pY0 pZ0
  have h2 := length_addTopPoints aT (rowLen pY0)
    (addBotPoints aB (rowLen pY0) pY0 pZ0).1 (addBotPoints aB (rowLen pY0) pY0 pZ0).2
  have hz2 : (addTopPoints aT (rowLen pY0) (addBotPoints aB (rowLen pY0) pY0 pZ0).1
      (addBotPoints aB (rowLen pY0) pY0 pZ0).2).2.length
      = (addTopPoints aT (rowLen pY0) (addBotPoints aB (rowLen pY0) pY0 pZ0).1
        (addBotPoints aB (rowLen pY0) pY0 pZ0).2).1.length := by
    rw [h2.1, h2.2, h1.1, h1.2, hz]
  have hlen2 : (addTopPoints aT (rowLen pY0) (addBotPoints aB (rowLen pY0) pY0 pZ0).1
      (addBotPoints aB (rowLen pY0) pY0 pZ0).2).1.length
      = pY0.length + padCount aB aT := by
    rw [h2.1, h1.1]
    unfold padCount
    omega
  have h3 := length_capPoints eb et _ _ hz2 (by rw [hlen2]; omega)
  constructor
  · rw [length_exchangePoints, h3.1, hlen2]
  · rw [h3.2, hlen2]

/-- C2: for both readers, with `excludeTop + excludeBot` below the row
count after padding, every returned array has exactly
`nPointsY_after_padding - excludeTop - excludeBot` rows. -/
theorem C2_row_counts (pY0 pZ0 uX0 uY0 uZ0 : Mat) (aB aT xb xt : PyFloat)
    (eb et : ℕ) (iB iT : Bool)
    (hpz : pZ0.length = pY0.length)
    (huy : uY0.length = uX0.length) (huz : uZ0.length = uX0.length)
    (hpb : eb + et < pY0.length + padCount aB aT)
    (hub : eb + et < uX0.length + padCount aB aT) :
    (read_points_core pY0 pZ0 aB aT eb et xb xt).pointsY.length
        = pY0.length + padCount aB aT - et - eb ∧
    (read_points_core pY0 pZ0 aB aT eb et xb xt).pointsZ.length
        = pY0.length + padCount aB aT - et - eb ∧
    (readVelocitySlices uX0 uY0 uZ0 aB aT eb et iB iT).1.length
        = uX0.length + padCount aB aT - et - eb ∧
    (readVelocitySlices uX0 uY0 uZ0 aB aT eb et iB iT).2.1.length
        = uX0.length + padCount aB aT - et - eb ∧
    (readVelocitySlices uX0 uY0 uZ0 aB aT eb et iB iT).2.2.length
        = uX0.length + padCount aB aT - et - eb := by
  have hp := read_points_core_lengths pY0 pZ0 aB aT xb xt eb et hpz (by omega)
  refine ⟨hp.1, hp.2, ?_, ?_, ?_⟩ <;>
  · unfold readVelocitySlices
    dsimp only []
    rw [length_velPad]
    exact length_velInterpTrim eb et (uX0.length + padCount aB aT) iB iT _
      (by simp [length_velPad, huy, huz]) (by omega)

/-- C2 witness: concrete stores with one bottom-padded row and one row
trimmed from each side. -/
theorem C2_row_counts_witness :
    (read_points_core [[1,1],[2,2],[3,3]] [[5,6],[7,8],[9,10]]
        (PyFloat.fin 0) PyFloat.nan 1 1 PyFloat.nan PyFloat.nan).pointsY.length = 2 ∧
    (readVelocitySlices [[1],[2],[3]] [[4],[5],[6]] [[7],[8],[9]]
        (PyFloat.fin 0) PyFloat.nan 1 1 false false).1.length = 2 ∧
    (readVelocitySlices [[1],[2],[3]] [[4],[5],[6]] [[7],[8],[9]]
        (PyFloat.fin 0) PyFloat.nan 1 1 false false).2.2.length = 2 := by
  have h := C2_row_counts [[1,1],[2,2],[3,3]] [[5,6],[7,8],[9,10]]
    [[1],[2],[3]] [[4],[5],[6]] [[7],[8],[9]]
    (PyFloat.fin 0) PyFloat.nan PyFloat.nan PyFloat.nan 1 1 false false
    (by decide) (by decide) (by decide) (by decide) (by decide)
  exact ⟨h.1.trans (by decide), h.2.2.1.trans (by decide), h.2.2.2.2.trans (by decide)⟩


theorem getRow_zero (a : Mat) : getRow a 0 = a.getD 0 [] := by
  have h := getRow_ofNat a 0
  simpa using h

theorem sameShape_cons (r s : Row) (a b : Mat) (hr : r.length = s.length)
    (h : sameShape a b) : sameShape (r :: a) (s :: b) := by
  refine ⟨by simp [h.1], fun i => ?_⟩
  cases i with
  | zero => simpa using hr
  | succ k => simpa using h.2 k

theorem sameShape_append_single (a b : Mat) (r s : Row) (h : sameShape a b)
    (hr : r.length = s.length) : sameShape (a ++ [r]) (b ++ [s]) := by
  refine ⟨by simp [h.1], fun i => ?_⟩
  rw [List.getD_eq_getElem?_getD, List.getD_eq_getElem?_getD,
    List.getElem?_append, List.getElem?_append]
  by_cases hi : i < a.length
  · rw [if_pos hi, if_pos (h.1 ▸ hi)]
    have h2 := h.2 i
    rw [List.getD_eq_getElem?_getD, List.getD_eq_getElem?_getD] at h2
    exact h2
  · rw [if_neg hi, ← h.1, if_neg hi]
    rcases i - a.length with _ | k
    · simpa using hr
    · simp

theorem sameShape_take (k : ℕ) (a b : Mat) (h : sameShape a b) :
    sameShape (a.take k) (b.take k) := by
  refine ⟨by simp [h.1], fun i => ?_⟩
  by_cases hik : i < k
  · rw [getD_take_lt _ _ _ hik, getD_take_lt _ _ _ hik]
    exact h.2 i
  · rw [List.getD_eq_getElem?_getD, List.getD_eq_getElem?_getD,
      List.getElem?_take, List.getElem?_take, if_neg hik, if_neg hik]

theorem sameShape_drop (k : ℕ) (a b : Mat) (h : sameShape a b) :
    sameShape (a.drop k) (b.drop k) := by
  refine ⟨by simp [h.1], fun i => ?_⟩
  rw [getD_drop_add, getD_drop_add]
  exact h.2 (k + i)

theorem sameShape_pyTake (s : ℤ) (a b : Mat) (h : sameShape a b) :
    sameShape (pyTake a s) (pyTake b s) := by
  unfold pyTake
  rw [h.1]
  split_ifs with hs
  · exact sameShape_take _ _ _ h
  · exact sameShape_take _ _ _ h

theorem sameShape_setRowConst (a b : Mat) (i : ℤ) (v : ℚ) (h : sameShape a b) :
    sameShape (setRow a i (constRow (getRow a i).length v)) b := by
  refine ⟨by simp [setRow, h.1], fun j => ?_⟩
  unfold setRow
  rw [getD_set_split]
  split_ifs with hc
  · rcases hc with ⟨hij, hlt⟩
    subst hij
    simp only [constRow, List.length_replicate]
    unfold getRow
    exact h.2 _
  · exact h.2 j

theorem sameShape_addBotPoints (aB : PyFloat) (pY pZ : Mat)
    (h : sameShape pY pZ) :
    sameShape (addBotPoints aB (rowLen pY) pY pZ).1
      (addBotPoints aB (rowLen pY) pY pZ).2 := by
  unfold addBotPoints
  cases aB with
  | nan => simpa [PyFloat.isnan] using h
  | fin q =>
      simp only [PyFloat.isnan, Bool.not_false, if_true]
      refine sameShape_cons _ _ _ _ ?_ h
      rw [getRow_zero]
      simp only [constRow, List.length_replicate, rowLen_eq_getD]
      exact h.2 0

theorem rowLen0_addBotPoints (aB : PyFloat) (pY pZ : Mat) :
    ((addBotPoints aB (rowLen pY) pY pZ).1.getD 0 []).length = rowLen pY := by
  unfold addBotPoints
  cases aB <;> simp [PyFloat.isnan, constRow, rowLen_eq_getD]

theorem sameShape_addTopPoints (aT : PyFloat) (w : ℕ) (pY pZ : Mat)
    (h : sameShape pY pZ) (hw : (pY.getD 0 []).length = w) :
    sameShape (addTopPoints aT w pY pZ).1 (addTopPoints aT w pY pZ).2 := by
  unfold addTopPoints
  cases aT with
  | nan => simpa [PyFloat.isnan] using h
  | fin q =>
      simp only [PyFloat.isnan, Bool.not_false, if_true]
      refine sameShape_append_single _ _ _ _ h ?_
      rw [getRow_zero]
      simp only [constRow, List.length_replicate]
      rw [← hw]
      exact h.2 0

theorem sameShape_capPoints (eb et : ℕ) (pY pZ : Mat) (h : sameShape pY pZ) :
    sameShape (capPoints eb et pY pZ).1 (capPoints eb et pY pZ).2 := by
  unfold capPoints
  dsimp only []
  split_ifs with h1 h2 h3
  · exact sameShape_drop _ _ _ (sameShape_pyTake _ _ _ h)
  · exact sameShape_drop _ _ _ h
  · exact sameShape_pyTake _ _ _ h
  · exact h

theorem sameShape_exchangePoints (xb xt : PyFloat) (pY pZ : Mat)
    (h : sameShape pY pZ) :
    sameShape (exchangePoints xb xt pY) pZ := by
  unfold exchangePoints
  dsimp only []
  split_ifs with h1 h2 h3
  · exact sameShape_setRowConst _ _ _ _ (sameShape_setRowConst _ _ _ _ h)
  · exact sameShape_setRowConst _ _ _ _ h
  · exact sameShape_setRowConst _ _ _ _ h
  · exact h

/-- C7: shape invariant of the points reader: given stored arrays of
identical shape, `pointsY` and `pointsZ` have identical shape after the
padding step, after the capping step, and in the final result, for
every parameter combination. -/
theorem C7_shape_invariant (pY0 pZ0 : Mat) (aB aT xb xt : PyFloat) (eb et : ℕ)
    (h : sameShape pY0 pZ0) :
    sameShape (addBotPoints aB (rowLen pY0) pY0 pZ0).1
        (addBotPoints aB (rowLen pY0) pY0 pZ0).2 ∧
    sameShape (addTopPoints aT (rowLen pY0)
          (addBotPoints aB (rowLen pY0) pY0 pZ0).1
          (addBotPoints aB (rowLen pY0) pY0 pZ0).2).1
        (addTopPoints aT (rowLen pY0)
          (addBotPoints aB (rowLen pY0) pY0 pZ0).1
          (addBotPoints aB (rowLen pY0) pY0 pZ0).2).2 ∧
    sameShape (capPoints eb et
          (addTopPoints aT (rowLen pY0)
            (addBotPoints aB (rowLen pY0) pY0 pZ0).1
            (addBotPoints aB (rowLen pY0) pY0 pZ0).2).1
          (addTopPoints aT (rowLen pY0)
            (addBotPoints aB (rowLen pY0) pY0 pZ0).1
            (addBotPoints aB (rowLen pY0) pY0 pZ0).2).2).1
        (capPoints eb et
          (addTopPoints aT (rowLen pY0)
            (addBotPoints aB (rowLen pY0) pY0 pZ0).1
            (addBotPoints aB (rowLen pY0) pY0 pZ0).2).1
          (addTopPoints aT (rowLen pY0)
            (addBotPoints aB (rowLen pY0) pY0 pZ0).1
            (addBotPoints aB (rowLen pY0) pY0 pZ0).2).2).2 ∧
    sameShape (read_points_core pY0 pZ0 aB aT eb et xb xt).pointsY
        (read_points_core pY0 pZ0 aB aT eb et xb xt).pointsZ := by
  have s1 := sameShape_addBotPoints aB pY0 pZ0 h
  have s2 := sameShape_addTopPoints aT (rowLen pY0) _ _ s1
    (rowLen0_addBotPoints aB pY0 pZ0)
  have s3 := sameShape_capPoints eb et _ _ s2
  exact ⟨s1, s2, s3, sameShape_exchangePoints xb xt _ _ s3⟩

/-- C7 witness: the invariant at a concrete store and parameters. -/
theorem C7_shape_invariant_witness :
    sameShape (read_points_core [[1,1],[2,2],[3,3]] [[4,4],[5,5],[6,6]]
        (PyFloat.fin 0) (PyFloat.fin 2) 1 1 (PyFloat.fin 7) (PyFloat.fin 8)).pointsY
      (read_points_core [[1,1],[2,2],[3,3]] [[4,4],[5,5],[6,6]]
        (PyFloat.fin 0) (PyFloat.fin 2) 1 1 (PyFloat.fin 7) (PyFloat.fin 8)).pointsZ :=
  (C7_shape_invariant [[1,1],[2,2],[3,3]] [[4,4],[5,5],[6,6]]
    (PyFloat.fin 0) (PyFloat.fin 2) (PyFloat.fin 7) (PyFloat.fin 8) 1 1
    ⟨by decide, fun i => by
      match i with
      | 0 => decide
      | 1 => decide
      | 2 => decide
      | (k+3) =>
          rw [List.getD_eq_default _ _ (by simp),
            List.getD_eq_default _ _ (by simp)]⟩).2.2.2


theorem pyIdx_zero (n : ℕ) : pyIdx n 0 = 0 := by
  unfold pyIdx
  simp

theorem exchangePoints_frame (xb xt : PyFloat) (p : Mat) (i : ℕ)
    (hi0 : i ≠ 0) (hilen : i + 1 ≠ p.length) :
    (exchangePoints xb xt p).getD i [] = p.getD i [] := by
  unfold exchangePoints
  cases xb <;> cases xt <;>
    simp only [PyFloat.isnan, Bool.not_true, Bool.not_false, if_false, if_true,
      Bool.false_eq_true, ite_false, ite_true]
  · unfold setRow
    rw [pyIdx_neg_one]
    exact getD_set_ne _ _ _ _ (by omega)
  · unfold setRow
    rw [pyIdx_zero]
    exact getD_set_ne _ _ _ _ (by omega)
  · unfold setRow
    rw [pyIdx_neg_one, pyIdx_zero, List.length_set]
    rw [getD_set_ne _ _ _ _ (by omega), getD_set_ne _ _ _ _ (by omega)]

theorem exchangePoints_effect (b t : ℚ) (p : Mat) (hlen : 2 ≤ p.length) :
    (exchangePoints (PyFloat.fin b) (PyFloat.fin t) p).getD 0 []
        = constRow (p.getD 0 []).length b ∧
    (exchangePoints (PyFloat.fin b) (PyFloat.fin t) p).getD
        ((exchangePoints (PyFloat.fin b) (PyFloat.fin t) p).length - 1) []
        = constRow (p.getD (p.length - 1) []).length t := by
  unfold exchangePoints
  simp only [PyFloat.isnan, Bool.not_false, if_true]
  constructor
  · unfold setRow
    rw [pyIdx_neg_one, pyIdx_zero, List.length_set]
    rw [getD_set_ne _ _ _ _ (by omega), getD_set_self _ _ _ (by omega)]
    rw [getRow_zero]
    rfl
  · unfold setRow
    rw [pyIdx_neg_one, pyIdx_zero]
    simp only [List.length_set]
    rw [getD_set_self _ _ _ (by rw [List.length_set]; omega)]
    unfold getRow
    rw [pyIdx_neg_one, List.length_set, getD_set_ne _ _ _ _ (by omega)]
    rfl

/-- C6: the exchange parameters only ever touch `pointsY`: for any
`exchangeValBot`/`exchangeValTop` the returned `pointsZ` and the stored
`pointsZ` are those of the exchange-free call, every `pointsY` row other
than the first and the last is that of the exchange-free call, and when
both values are set (and at least two rows remain) row `0` is filled
with `exchangeValBot` and the last row with `exchangeValTop`. -/
theorem C6_exchange_frame (pY0 pZ0 : Mat) (aB aT : PyFloat) (eb et : ℕ)
    (b t : ℚ) (xb xt : PyFloat) :
    (read_points_core pY0 pZ0 aB aT eb et xb xt).pointsZ
      = (read_points_core pY0 pZ0 aB aT eb et PyFloat.nan PyFloat.nan).pointsZ ∧
    (read_points_core pY0 pZ0 aB aT eb et xb xt).storedPointsZ = pZ0 ∧
    (∀ i : ℕ, i ≠ 0 →
      i + 1 ≠ (read_points_core pY0 pZ0 aB aT eb et PyFloat.nan PyFloat.nan).pointsY.length →
      (read_points_core pY0 pZ0 aB aT eb et xb xt).pointsY.getD i []
        = (read_points_core pY0 pZ0 aB aT eb et PyFloat.nan PyFloat.nan).pointsY.getD i []) ∧
    (2 ≤ (read_points_core pY0 pZ0 aB aT eb et PyFloat.nan PyFloat.nan).pointsY.length →
      (read_points_core pY0 pZ0 aB aT eb et (PyFloat.fin b) (PyFloat.fin t)).pointsY.getD 0 []
        = constRow ((read_points_core pY0 pZ0 aB aT eb et
            PyFloat.nan PyFloat.nan).pointsY.getD 0 []).length b ∧
      (read_points_core pY0 pZ0 aB aT eb et (PyFloat.fin b) (PyFloat.fin t)).pointsY.getD
          ((read_points_core pY0 pZ0 aB aT eb et
            (PyFloat.fin b) (PyFloat.fin t)).pointsY.length - 1) []
        = constRow ((read_points_core pY0 pZ0 aB aT eb et PyFloat.nan
            PyFloat.nan).pointsY.getD ((read_points_core pY0 pZ0 aB aT eb et
              PyFloat.nan PyFloat.nan).pointsY.length - 1) []).length t) := by
  refine ⟨rfl, rfl, ?_, ?_⟩
  · intro i hi0 hilen
    exact exchangePoints_frame xb xt _ i hi0 hilen
  · intro hlen
    exact exchangePoints_effect b t _ hlen

/-- C6 witness: at a concrete store with both exchange values set. -/
theorem C6_exchange_frame_witness :
    (read_points_core [[1,1],[2,2],[3,3]] [[4,4],[5,5],[6,6]]
        PyFloat.nan PyFloat.nan 0 0 (PyFloat.fin 7) (PyFloat.fin 9)).pointsZ
      = (read_points_core [[1,1],[2,2],[3,3]] [[4,4],[5,5],[6,6]]
          PyFloat.nan PyFloat.nan 0 0 PyFloat.nan PyFloat.nan).pointsZ ∧
    (read_points_core [[1,1],[2,2],[3,3]] [[4,4],[5,5],[6,6]]
        PyFloat.nan PyFloat.nan 0 0 (PyFloat.fin 7) (PyFloat.fin 9)).pointsY.getD 1 []
      = [(2 : ℚ), 2] ∧
    (read_points_core [[1,1],[2,2],[3,3]] [[4,4],[5,5],[6,6]]
        PyFloat.nan PyFloat.nan 0 0 (PyFloat.fin 7) (PyFloat.fin 9)).pointsY.getD 0 []
      = constRow 2 7 := by
  have h := C6_exchange_frame [[1,1],[2,2],[3,3]] [[4,4],[5,5],[6,6]]
    PyFloat.nan PyFloat.nan 0 0 7 9 (PyFloat.fin 7) (PyFloat.fin 9)
  refine ⟨h.1, ?_, ?_⟩
  · exact (h.2.2.1 1 (by decide) (by decide)).trans (by decide)
  · exact ((h.2.2.2 (by decide)).1).trans (by decide)


theorem getD_last_capVel (b : Mat) (eb et n : ℕ) (hb : eb + et < n) :
    (if eb ≠ 0 then (pyTake b ((n : ℤ) - et)).drop eb
      else pyTake b ((n : ℤ) - et)).getD (n - et - eb - 1) []
      = b.getD (n - et - 1) [] := by
  have hto : ((n : ℤ) - (et : ℤ)).toNat = n - et := by omega
  rw [pyTake_nonneg _ _ (by omega), hto]
  by_cases heb : eb ≠ 0
  · rw [if_pos heb, getD_drop_add]
    have hidx : eb + (n - et - eb - 1) = n - et - 1 := by omega
    rw [hidx, getD_take_lt _ _ _ (by omega)]
  · rw [if_neg heb]
    have hidx : n - et - eb - 1 = n - et - 1 := by omega
    rw [hidx, getD_take_lt _ _ _ (by omega)]

theorem getD_head_capVel (b : Mat) (eb et n : ℕ) (hb : eb + et < n) :
    ((if et ≠ 0 then pyTake b ((n : ℤ) - et) else b).drop eb).getD 0 []
      = b.getD eb [] := by
  by_cases het : et ≠ 0
  · have hto : ((n : ℤ) - (et : ℤ)).toNat = n - et := by omega
    rw [if_pos het, pyTake_nonneg _ _ (by omega), hto, getD_drop_add,
      Nat.add_zero, getD_take_lt _ _ _ (by omega)]
  · rw [if_neg het, getD_drop_add, Nat.add_zero]

/-- With top interpolation enabled, the last retained row after
truncation is the average of the padded rows `t-1` and `t`, with
`t = n - excludeTop`, provided the bottom interpolation does not target
that same row. -/
theorem velInterpTrim_last (eb et n : ℕ) (iB : Bool) (a : Mat)
    (hn : a.length = n) (het : et ≠ 0) (hb : eb + et < n)
    (hov : ¬(iB = true ∧ eb ≠ 0 ∧ eb + 1 = n - et)) :
    (velInterpTrim eb et iB true ((n : ℤ) - et) a).getD (n - et - eb - 1) []
      = avgRow (a.getD (n - et - 1) []) (a.getD (n - et) []) := by
  subst hn
  have k1 : pyIdx (List.length a) ((List.length a : ℤ) - et - 1)
      = List.length a - et - 1 := by
    rw [pyIdx_nonneg _ _ (by omega)]
    omega
  have g1 : getRow a ((List.length a : ℤ) - et - 1)
      = a.getD (List.length a - et - 1) [] := by
    unfold getRow
    rw [k1]
  have g2 : getRow a ((List.length a : ℤ) - et)
      = a.getD (List.length a - et) [] := by
    unfold getRow
    rw [pyIdx_nonneg _ _ (by omega)]
    congr 1
    omega
  unfold velInterpTrim
  dsimp only []
  rw [if_pos (show (true = true) ∧ et ≠ 0 from ⟨rfl, het⟩)]
  by_cases hc : iB = true ∧ eb ≠ 0
  · obtain ⟨hciB, hceb⟩ := hc
    have hne : eb + 1 ≠ List.length a - et := fun hcl => hov ⟨hciB, hceb, hcl⟩
    rw [if_pos (show iB = true ∧ eb ≠ 0 from ⟨hciB, hceb⟩), if_pos het,
      getD_last_capVel _ _ _ _ hb]
    unfold setRow
    rw [k1, List.length_set]
    have k3 : pyIdx (List.length a) (eb : ℤ) = eb := by
      rw [pyIdx_nonneg _ _ (by omega)]
      omega
    rw [k3, getD_set_ne _ _ _ _ (by omega), getD_set_self _ _ _ (by omega),
      g1, g2]
  · rw [if_neg hc, if_pos het, getD_last_capVel _ _ _ _ hb]
    unfold setRow
    rw [k1, getD_set_self _ _ _ (by omega), g1, g2]

/-- With bottom interpolation enabled, the first retained row after the
drop is the average of the rows `excludeBot - 1` and `excludeBot` of the
padded array, provided the top interpolation does not target the row the
bottom interpolation reads. -/
theorem velInterpTrim_head (eb et n : ℕ) (iT : Bool) (a : Mat)
    (hn : a.length = n) (heb : eb ≠ 0) (hb : eb + et < n)
    (hov : ¬(iT = true ∧ et ≠ 0 ∧ eb + 1 = n - et)) :
    (velInterpTrim eb et true iT ((n : ℤ) - et) a).getD 0 []
      = avgRow (a.getD (eb - 1) []) (a.getD eb []) := by
  subst hn
  have k1 : pyIdx (List.length a) ((List.length a : ℤ) - et - 1)
      = List.length a - et - 1 := by
    rw [pyIdx_nonneg _ _ (by omega)]
    omega
  have k3 : pyIdx (List.length a) (eb : ℤ) = eb := by
    rw [pyIdx_nonneg _ _ (by omega)]
    omega
  have k4 : pyIdx (List.length a) ((eb : ℤ) - 1) = eb - 1 := by
    rw [pyIdx_nonneg _ _ (by omega)]
    omega
  unfold velInterpTrim
  dsimp only []
  rw [if_pos (show (true = true) ∧ eb ≠ 0 from ⟨rfl, heb⟩), if_pos heb,
    getD_head_capVel _ _ _ _ hb]
  by_cases hT : iT = true ∧ et ≠ 0
  · obtain ⟨hiT, het⟩ := hT
    have hne : eb + 1 ≠ List.length a - et := fun hcl => hov ⟨hiT, het, hcl⟩
    rw [if_pos (show iT = true ∧ et ≠ 0 from ⟨hiT, het⟩)]
    unfold setRow getRow
    rw [k1, List.length_set, k3, k4,
      getD_set_self _ _ _ (by rw [List.length_set]; omega),
      getD_set_ne _ _ _ _ (by omega), getD_set_ne _ _ _ _ (by omega)]
  · rw [if_neg hT]
    unfold setRow getRow
    rw [k3, k4, getD_set_self _ _ _ (by omega)]

/-- C1 (amended): interpolation happens strictly before truncation.  Let
`n = nPointsY` after padding and `t = n - excludeTop`.  With
`interpValTop` and `excludeTop > 0`, the last row of each returned
component is `0.5*(a[t-1] + a[t])` of the padded (pre-interpolation,
pre-truncation) array `a` — provided the bottom interpolation does not
target that same row (`¬(interpValBot ∧ excludeBot > 0 ∧ excludeBot =
t-1)`), since the bottom interpolation runs second and would overwrite
it.  Symmetrically, with `interpValBot` and `excludeBot > 0` the first
returned row is `0.5*(a[excludeBot-1] + a[excludeBot])` under the same
non-overlap proviso.  Row counts are `n - excludeTop - excludeBot`. -/
theorem C1_interp_before_truncation (uX0 uY0 uZ0 : Mat) (aB aT : PyFloat)
    (eb et : ℕ) (iB iT : Bool)
    (hY : uY0.length = uX0.length) (hZ : uZ0.length = uX0.length)
    (hb : eb + et < uX0.length + padCount aB aT) :
    ((readVelocitySlices uX0 uY0 uZ0 aB aT eb et iB iT).1.length
        = uX0.length + padCount aB aT - et - eb ∧
     (readVelocitySlices uX0 uY0 uZ0 aB aT eb et iB iT).2.1.length
        = uX0.length + padCount aB aT - et - eb ∧
     (readVelocitySlices uX0 uY0 uZ0 aB aT eb et iB iT).2.2.length
        = uX0.length + padCount aB aT - et - eb) ∧
    (iT = true → et ≠ 0 →
      ¬(iB = true ∧ eb ≠ 0 ∧ eb + 1 = uX0.length + padCount aB aT - et) →
      ((readVelocitySlices uX0 uY0 uZ0 aB aT eb et iB iT).1.getD
          (uX0.length + padCount aB aT - et - eb - 1) []
        = avgRow ((velPad aB aT (rowLen uX0) uX0).getD
              (uX0.length + padCount aB aT - et - 1) [])
            ((velPad aB aT (rowLen uX0) uX0).getD
              (uX0.length + padCount aB aT - et) []) ∧
       (readVelocitySlices uX0 uY0 uZ0 aB aT eb et iB iT).2.1.getD
          (uX0.length + padCount aB aT - et - eb - 1) []
        = avgRow ((velPad aB aT (rowLen uX0) uY0).getD
              (uX0.length + padCount aB aT - et - 1) [])
            ((velPad aB aT (rowLen uX0) uY0).getD
              (uX0.length + padCount aB aT - et) []) ∧
       (readVelocitySlices uX0 uY0 uZ0 aB aT eb et iB iT).2.2.getD
          (uX0.length + padCount aB aT - et - eb - 1) []
        = avgRow ((velPad aB aT (rowLen uX0) uZ0).getD
              (uX0.length + padCount aB aT - et - 1) [])
            ((velPad aB aT (rowLen uX0) uZ0).getD
              (uX0.length + padCount aB aT - et) []))) ∧
    (iB = true → eb ≠ 0 →
      ¬(iT = true ∧ et ≠ 0 ∧ eb + 1 = uX0.length + padCount aB aT - et) →
      ((readVelocitySlices uX0 uY0 uZ0 aB aT eb et iB iT).1.getD 0 []
        = avgRow ((velPad aB aT (rowLen uX0) uX0).getD (eb - 1) [])
            ((velPad aB aT (rowLen uX0) uX0).getD eb []) ∧
       (readVelocitySlices uX0 uY0 uZ0 aB aT eb et iB iT).2.1.getD 0 []
        = avgRow ((velPad aB aT (rowLen uX0) uY0).getD (eb - 1) [])
            ((velPad aB aT (rowLen uX0) uY0).getD eb []) ∧
       (readVelocitySlices uX0 uY0 uZ0 aB aT eb et iB iT).2.2.getD 0 []
        = avgRow ((velPad aB aT (rowLen uX0) uZ0).getD (eb - 1) [])
            ((velPad aB aT (rowLen uX0) uZ0).getD eb []))) := by
  have hpX : (velPad aB aT (rowLen uX0) uX0).length
      = uX0.length + padCount aB aT := length_velPad aB aT (rowLen uX0) uX0
  have hpY : (velPad aB aT (rowLen uX0) uY0).length
      = uX0.length + padCount aB aT := by rw [length_velPad, hY]
  have hpZ : (velPad aB aT (rowLen uX0) uZ0).length
      = uX0.length + padCount aB aT := by rw [length_velPad, hZ]
  unfold readVelocitySlices
  dsimp only []
  rw [hpX]
  refine ⟨⟨?_, ?_, ?_⟩, ?_, ?_⟩
  · exact length_velInterpTrim eb et _ iB iT _ hpX (by omega)
  · exact length_velInterpTrim eb et _ iB iT _ hpY (by omega)
  · exact length_velInterpTrim eb et _ iB iT _ hpZ (by omega)
  · intro hiT het hov
    subst hiT
    exact ⟨velInterpTrim_last eb et _ iB _ hpX het hb hov,
      velInterpTrim_last eb et _ iB _ hpY het hb hov,
      velInterpTrim_last eb et _ iB _ hpZ het hb hov⟩
  · intro hiB heb hov
    subst hiB
    exact ⟨velInterpTrim_head eb et _ iT _ hpX heb hb hov,
      velInterpTrim_head eb et _ iT _ hpY heb hb hov,
      velInterpTrim_head eb et _ iT _ hpZ heb hb hov⟩

/-- C1 counterexample to the unqualified claim: `nPointsY = 3` (no
padding), `excludeTop = excludeBot = 1`, both interpolations enabled, so
`t = 2` and `excludeBot = t - 1`: the single returned row is `[2]`
(the top-interpolated row `0.5*([2]+[4]) = [3]` is overwritten by the
bottom interpolation `0.5*([1]+[3]) = [2]` before truncation), not
`0.5*(a[1]+a[2]) = [3]` — and the pre-truncation array after
interpolation is `[[1],[2],[4]]` again, so the claim fails under either
reading of "the pre-truncation array". -/
theorem C1_counterexample :
    (readVelocitySlices [[1],[2],[4]] [[1],[2],[4]] [[1],[2],[4]]
        PyFloat.nan PyFloat.nan 1 1 true true).1.getD 0 []
      ≠ avgRow (([[1],[2],[4]] : Mat).getD 1 []) (([[1],[2],[4]] : Mat).getD 2 []) := by
  norm_num [readVelocitySlices, velPad, velInterpTrim, pyTake, setRow, getRow,
    pyIdx, avgRow, constRow, rowLen, padCount, PyFloat.isnan, PyFloat.val,
    Int.toNat_ofNat, List.zipWith]

/-- C1 witness: a non-overlapping configuration (`n = 4`, `excludeBot =
excludeTop = 1`, both interpolations on): the last returned row is
`0.5*([4]+[8]) = [6]` and the first is `0.5*([1]+[2]) = [3/2]`. -/
theorem C1_interp_witness :
    (readVelocitySlices [[1],[2],[4],[8]] [[1],[2],[4],[8]] [[1],[2],[4],[8]]
        PyFloat.nan PyFloat.nan 1 1 true true).1.getD 1 [] = [(6 : ℚ)] ∧
    (readVelocitySlices [[1],[2],[4],[8]] [[1],[2],[4],[8]] [[1],[2],[4],[8]]
        PyFloat.nan PyFloat.nan 1 1 true true).1.getD 0 [] = [(3/2 : ℚ)] := by
  have h := C1_interp_before_truncation [[1],[2],[4],[8]] [[1],[2],[4],[8]]
    [[1],[2],[4],[8]] PyFloat.nan PyFloat.nan 1 1 true true rfl rfl (by decide)
  constructor
  · exact ((h.2.1 rfl (by decide) (by decide)).1).trans
      (by norm_num [velPad, avgRow, rowLen, padCount, PyFloat.isnan])
  · exact ((h.2.2 rfl (by decide) (by decide)).1).trans
      (by norm_num [velPad, avgRow, rowLen, padCount, PyFloat.isnan])

end Eddylicious
